import Mathlib

/-!
Shallow embedding of the Cryptocat Telegram bot (src/main.rs) and proofs
about its command handler, quote fetcher, callback-query handler and
callback polling loop.

The bot's outbound network calls (message sends, message edits, callback
acknowledgments) and the quote endpoint's response are modelled as
environment inputs; each handler is embedded as a pure function from its
environment and its event to the list of outbound calls it issues together
with its `ResponseResult` value.
-/

namespace Cryptocat

/-- Model of rust_decimal's `Decimal` as used by `main.rs`: a signed integer
mantissa together with a base-10 scale, the represented value being
`mantissa / 10 ^ scale`. -/
structure Decimal where
  mantissa : Int
  scale : Nat
  deriving DecidableEq

/-- Model of `Decimal::new(num, scale)`. -/
def Decimal.new (num : Int) (scale : Nat) : Decimal :=
  ⟨num, scale⟩

/-- Two-digit zero-padded rendering of a natural number below 100, used for
the fractional part of `{:.2}` formatting. -/
def pad2 (n : Nat) : String :=
  if n < 10 then "0" ++ toString n else toString n

/-- Model of `format!("{:.2}", d)` on a rust_decimal `Decimal`: the decimal
rendering with exactly two fractional digits, padding with zeros when the
scale is below two and truncating the extra fractional digits when the
scale exceeds two. -/
def Decimal.format2 (d : Decimal) : String :=
  let n := d.mantissa.natAbs
  let intPart := n / 10 ^ d.scale
  let frac := n % 10 ^ d.scale
  let frac2 := if 2 ≤ d.scale then frac / 10 ^ (d.scale - 2) else frac * 10 ^ (2 - d.scale)
  let sign := if d.mantissa < 0 then "-" else ""
  sign ++ toString intPart ++ "." ++ pad2 frac2

/-- Digit-accumulating core of the model of `Decimal::from_str`: consumes
the remaining characters, tracking whether a digit has been seen, whether
the decimal point has been passed, the mantissa accumulated so far and the
number of fractional digits. Rejects a second decimal point, a leading
underscore, any non-digit character, and an input with no digit at all. -/
def parseChars (cs : List Char) (seenDigit afterPoint : Bool) (m s : Nat) :
    Except String (Nat × Nat) :=
  match cs with
  | [] => if seenDigit then .ok (m, s) else .error "Invalid decimal: no digits"
  | c :: rest =>
    if c.isDigit then
      parseChars rest true afterPoint (m * 10 + (c.toNat - 48)) (if afterPoint then s + 1 else s)
    else if c = '.' then
      if afterPoint then .error "Invalid decimal: two decimal points"
      else parseChars rest seenDigit true m s
    else if c = '_' then
      if seenDigit then parseChars rest seenDigit afterPoint m s
      else .error "Invalid decimal: must start with a digit"
    else .error "Invalid decimal: unknown character"

/-- Division rounding half away from zero, used when a parsed value has more
than 28 fractional digits. -/
def roundHalfUpDiv (a b : Nat) : Nat :=
  (a + b / 2) / b

/-- Model of rust_decimal's `Decimal::from_str`: an optional sign followed
by digits with at most one decimal point and optional underscore
separators; an empty string, an unknown character, a second decimal point
or a digit-free input is an error; more than 28 fractional digits are
rounded away and a mantissa at or above `2 ^ 96` is an overflow error. -/
def Decimal.from_str (str : String) : Except String Decimal :=
  match str.toList with
  | [] => .error "Invalid decimal: empty"
  | cs =>
    let signSplit :=
      match cs with
      | '-' :: rest => (true, rest)
      | '+' :: rest => (false, rest)
      | other => (false, other)
    match parseChars signSplit.2 false false 0 0 with
    | .error e => .error e
    | .ok ms =>
      let rescaled := if 28 < ms.2 then (roundHalfUpDiv ms.1 (10 ^ (ms.2 - 28)), 28) else ms
      if rescaled.1 < 79228162514264337593543950336 then
        .ok ⟨if signSplit.1 then -(rescaled.1 : Int) else (rescaled.1 : Int), rescaled.2⟩
      else .error "Invalid decimal: overflow from too many digits"

/-- Outcome of the HTTP-and-JSON stage of `get_bitcoin_price`: either the
request or deserialization fails, or it yields a `PriceResponse` whose
`price` field is the given string. -/
inductive FetchEnv where
  | netErr (e : String)
  | body (price : String)
  deriving DecidableEq

/-- Embedding of `get_bitcoin_price` (src/main.rs lines 142-157): propagate
a transport or deserialization error; otherwise convert the `price` string
with `Decimal::from_str`, substituting `Decimal::new(0, 1)` when the
conversion fails, and return the result as a success. -/
def get_bitcoin_price (env : FetchEnv) : Except String Decimal :=
  match env with
  | .netErr e => .error e
  | .body s =>
    .ok (match Decimal.from_str s with
         | .ok num => num
         | .error _ => Decimal.new 0 1)

/-- C1: the claim states that for every unparseable price string
`get_bitcoin_price` returns an error and never a zero-valued success. The
code does the opposite: on each malformed price string it substitutes
`Decimal::new(0, 1)`, a zero value, and returns it as a success — the
zero-fallback the spec explicitly brands a bug. -/
theorem C1_zero_fallback_on_parse_failure :
    get_bitcoin_price (.body "abc") = .ok (Decimal.new 0 1)
    ∧ get_bitcoin_price (.body "") = .ok (Decimal.new 0 1)
    ∧ get_bitcoin_price (.body "1.2.3") = .ok (Decimal.new 0 1)
    ∧ (Decimal.new 0 1).mantissa = 0
    ∧ Decimal.format2 (Decimal.new 0 1) = "0.00" := by
  refine ⟨rfl, rfl, rfl, rfl, rfl⟩

/-- Inline keyboard button: `InlineKeyboardButton::callback(text, data)`. -/
structure Button where
  text : String
  callbackData : String
  deriving DecidableEq

/-- Inline keyboard markup: rows of buttons. -/
abbrev Keyboard := List (List Button)

/-- Callback data attached to the refresh button built in `answer`
(src/main.rs line 114). -/
def answerRefreshToken : String := "update_btc_price"

/-- Callback data the callback-query handler filters on
(src/main.rs line 161). -/
def pollerFilterTag : String := "update_btc_price"

/-- Command enumeration of the bot (src/main.rs lines 67-74). -/
inductive Command where
  | Info
  | Help
  | GetBtcPrice
  deriving DecidableEq

/-- Help text generated by `Command::descriptions()` from the `BotCommands`
derive with its `description` attributes and lowercase rename rule. -/
def commandDescriptions : String :=
  "These commands are supported:\n/info — About this bot.\n/help — Display this text.\n/getbtcprice — Get USDT/BTC price."

/-- Text of the `Info` reply, with the `APP_NAME` and `APP_VERSION`
environment variables defaulted to Bot and 0.1. -/
def infoText (appName appVersion : Option String) : String :=
  "Meow! Soy " ++ appName.getD "Bot" ++ ", en mi Version: " ++ appVersion.getD "0.1" ++
    ". Solo puedo obtener el precio del Bitcoin por ahora. (BTC/USDT)"

/-- One `bot.send_message` call issued by `answer`: target chat, text, and
the optional inline keyboard attached via `reply_markup`. -/
structure SendCall where
  chatId : Int
  text : String
  replyMarkup : Option Keyboard
  deriving DecidableEq

/-- Environment of one `answer` invocation: the `APP_NAME` and
`APP_VERSION` variables, the quote endpoint's behaviour, and the outcome of
the one `send_message` call the invocation issues (whose failure the
source propagates with the question-mark operator). -/
structure AnswerEnv where
  appName : Option String
  appVersion : Option String
  fetch : FetchEnv
  sendResult : Except String Unit

/-- Embedding of `answer` (src/main.rs lines 94-138): returns the list of
`send_message` calls issued and the `ResponseResult` value. Every branch
issues exactly one send and propagates that send's outcome; errors shown
with `{:?}` are carried as their rendered text. -/
def answer (env : AnswerEnv) (chatId : Int) (cmd : Command) :
    List SendCall × Except String Unit :=
  match cmd with
  | .Info => ([⟨chatId, infoText env.appName env.appVersion, none⟩], env.sendResult)
  | .Help => ([⟨chatId, commandDescriptions, none⟩], env.sendResult)
  | .GetBtcPrice =>
    let keyboard : Keyboard := [[⟨"Update Price", answerRefreshToken⟩]]
    match get_bitcoin_price env.fetch with
    | .ok val =>
      ([⟨chatId, "The price of the bitcoin is: " ++ Decimal.format2 val, some keyboard⟩],
        env.sendResult)
    | .error err =>
      ([⟨chatId, "Error fetching bitcoin price: " ++ err, none⟩], env.sendResult)

/-- Padding a natural number below 100 to two digits yields a two-character
string. -/
theorem pad2_length : ∀ n, n < 100 → (pad2 n).length = 2 := by
  decide

/-- The fractional part computed by `Decimal.format2` is below 100. -/
theorem format2_frac_lt (d : Decimal) :
    (if 2 ≤ d.scale then d.mantissa.natAbs % 10 ^ d.scale / 10 ^ (d.scale - 2)
     else d.mantissa.natAbs % 10 ^ d.scale * 10 ^ (2 - d.scale)) < 100 := by
  have hpow : 0 < (10 : Nat) ^ d.scale := Nat.pos_pow_of_pos _ (by norm_num)
  have hmod : d.mantissa.natAbs % 10 ^ d.scale < 10 ^ d.scale :=
    Nat.mod_lt _ hpow
  by_cases h : 2 ≤ d.scale
  · simp only [if_pos h]
    have hsplit : (10 : Nat) ^ d.scale = 10 ^ (d.scale - 2) * 100 := by
      calc (10 : Nat) ^ d.scale = 10 ^ (d.scale - 2 + 2) := by
            rw [Nat.sub_add_cancel h]
        _ = 10 ^ (d.scale - 2) * 100 := by rw [pow_add]; norm_num
    have hp2 : 0 < (10 : Nat) ^ (d.scale - 2) := Nat.pos_pow_of_pos _ (by norm_num)
    rw [Nat.div_lt_iff_lt_mul hp2]
    calc d.mantissa.natAbs % 10 ^ d.scale < 10 ^ d.scale := hmod
      _ = 10 ^ (d.scale - 2) * 100 := hsplit
      _ = 100 * 10 ^ (d.scale - 2) := by ring
  · simp only [if_neg h]
    have hsplit : (10 : Nat) ^ d.scale * 10 ^ (2 - d.scale) = 100 := by
      rw [← pow_add, Nat.add_sub_cancel' (Nat.le_of_not_le h)]
      norm_num
    calc d.mantissa.natAbs % 10 ^ d.scale * 10 ^ (2 - d.scale)
        < 10 ^ d.scale * 10 ^ (2 - d.scale) :=
          mul_lt_mul_of_pos_right hmod (Nat.pos_pow_of_pos _ (by norm_num))
      _ = 100 := hsplit

/-- The `{:.2}` rendering always ends in a decimal point followed by
exactly two digits. -/
theorem format2_two_decimals (d : Decimal) :
    ∃ pre post, Decimal.format2 d = pre ++ "." ++ post ∧ post.length = 2 := by
  refine ⟨(if d.mantissa < 0 then "-" else "") ++ toString (d.mantissa.natAbs / 10 ^ d.scale),
    pad2 (if 2 ≤ d.scale then d.mantissa.natAbs % 10 ^ d.scale / 10 ^ (d.scale - 2)
          else d.mantissa.natAbs % 10 ^ d.scale * 10 ^ (2 - d.scale)), ?_, ?_⟩
  · simp only [Decimal.format2, String.append_assoc]
  · exact pad2_length _ (format2_frac_lt d)

/-- C5 (amended): every command makes `answer` issue exactly one
`send_message` call, and the value `answer` returns is exactly the outcome
of that send — a quote-fetch failure is turned into an error-text reply
rather than an error return, while a failure of the send itself propagates
to the caller. -/
theorem C5_one_send_and_propagation :
    ∀ (env : AnswerEnv) (chatId : Int) (cmd : Command),
      (answer env chatId cmd).1.length = 1 ∧ (answer env chatId cmd).2 = env.sendResult := by
  intro env chatId cmd
  cases cmd with
  | Info => exact ⟨rfl, rfl⟩
  | Help => exact ⟨rfl, rfl⟩
  | GetBtcPrice =>
    cases hf : get_bitcoin_price env.fetch with
    | ok val => simp [answer, hf]
    | error err => simp [answer, hf]

/-- C5 counterexample: the claim states `answer` never propagates an error
past its own boundary, but when the reply send itself fails the
question-mark operator raises that failure to the caller. -/
theorem C5_counterexample :
    (answer ⟨none, none, .body "1", .error "send failed"⟩ 1 .Info).2
      = .error "send failed" := rfl

/-- C7: on a successful quote fetch, the `GetBtcPrice` reply is a single
send whose text is the quote formatted to exactly two decimal places and
whose markup is exactly one button carrying the refresh token, and that
token is exactly the string the callback-query handler filters on. -/
theorem C7_getprice_success_reply (env : AnswerEnv) (chatId : Int) (val : Decimal)
    (h : get_bitcoin_price env.fetch = .ok val) :
    (answer env chatId .GetBtcPrice).1
        = [⟨chatId, "The price of the bitcoin is: " ++ Decimal.format2 val,
            some [[⟨"Update Price", answerRefreshToken⟩]]⟩]
      ∧ answerRefreshToken = pollerFilterTag
      ∧ ∃ pre post, Decimal.format2 val = pre ++ "." ++ post ∧ post.length = 2 := by
  refine ⟨?_, rfl, format2_two_decimals val⟩
  simp [answer, h]

/-- C7 witness: a fetch of the price string 50000.123 yields the reply text
containing 50000.12 and the one refresh button. -/
theorem C7_getprice_success_reply_witness :
    get_bitcoin_price (.body "50000.123") = .ok ⟨50000123, 3⟩
    ∧ ((answer ⟨none, none, .body "50000.123", .ok ()⟩ 99 .GetBtcPrice).1
          = [⟨99, "The price of the bitcoin is: " ++ Decimal.format2 ⟨50000123, 3⟩,
              some [[⟨"Update Price", answerRefreshToken⟩]]⟩]
        ∧ answerRefreshToken = pollerFilterTag
        ∧ ∃ pre post, Decimal.format2 ⟨50000123, 3⟩ = pre ++ "." ++ post ∧ post.length = 2)
    ∧ Decimal.format2 ⟨50000123, 3⟩ = "50000.12" :=
  ⟨rfl, C7_getprice_success_reply ⟨none, none, .body "50000.123", .ok ()⟩ 99 ⟨50000123, 3⟩ rfl,
    rfl⟩

/-- C8: when the quote fetch fails, the `GetBtcPrice` handler issues
exactly one reply send, its text describing the failure, with no keyboard
attached. -/
theorem C8_getprice_failure_reply (env : AnswerEnv) (chatId : Int) (e : String)
    (h : get_bitcoin_price env.fetch = .error e) :
    (answer env chatId .GetBtcPrice).1
      = [⟨chatId, "Error fetching bitcoin price: " ++ e, none⟩] := by
  simp [answer, h]

/-- C8 witness: a transport failure produces the single button-free error
reply. -/
theorem C8_getprice_failure_reply_witness :
    get_bitcoin_price (.netErr "timeout") = .error "timeout"
    ∧ (answer ⟨none, none, .netErr "timeout", .ok ()⟩ 42 .GetBtcPrice).1
        = [⟨42, "Error fetching bitcoin price: " ++ "timeout", none⟩] :=
  ⟨rfl, C8_getprice_failure_reply ⟨none, none, .netErr "timeout", .ok ()⟩ 42 "timeout" rfl⟩

/-- Reference to the message a callback query was attached to: the chat id
and message id used by `message.chat().id` and `message.id()`. -/
structure TargetMessage where
  chatId : Int
  msgId : Int
  deriving DecidableEq

/-- Callback query as consumed by `handle_callback_query`: its id, its
optional `data` payload, and the optional message it references. -/
structure CallbackQuery where
  id : String
  data : Option String
  message : Option TargetMessage
  deriving DecidableEq

/-- One outbound action of the callback-query handler: the quote fetch, an
`edit_message_text` call (whose builder's optional `reply_markup` the
source never sets, hence the `Option Keyboard` field carrying `none`), or
an `answer_callback_query` call with its optional `text`. -/
inductive BotCall where
  | fetch
  | edit (chatId msgId : Int) (text : String) (replyMarkup : Option Keyboard)
  | answerCallback (id : String) (text : Option String)
  deriving DecidableEq

/-- Environment of one `handle_callback_query` invocation: the quote
endpoint's behaviour and the outcomes of the `edit_message_text` call, the
error-toast `answer_callback_query` call, and the final confirmation
`answer_callback_query` call. -/
structure CallbackEnv where
  fetch : FetchEnv
  editResult : Except String Unit
  toastResult : Except String Unit
  ackResult : Except String Unit

/-- Embedding of `handle_callback_query` (src/main.rs lines 159-186):
returns the list of outbound calls issued, in order, and the
`ResponseResult` value. Each `.await?` failure aborts the rest of the body
and propagates the error. -/
def handle_callback_query (env : CallbackEnv) (query : CallbackQuery) :
    List BotCall × Except String Unit :=
  match query.data with
  | none => ([], .ok ())
  | some d =>
    if d = pollerFilterTag then
      match query.message with
      | none => ([], .ok ())
      | some message =>
        let callback_id := query.id
        match get_bitcoin_price env.fetch with
        | .ok val =>
          let editCall := BotCall.edit message.chatId message.msgId
            ("The price of the bitcoin is: " ++ Decimal.format2 val) none
          match env.editResult with
          | .error e => ([.fetch, editCall], .error e)
          | .ok _ =>
            match env.ackResult with
            | .error e => ([.fetch, editCall, .answerCallback callback_id none], .error e)
            | .ok _ => ([.fetch, editCall, .answerCallback callback_id none], .ok ())
        | .error err =>
          let toastCall := BotCall.answerCallback query.id
            (some ("Error fetching bitcoin price: " ++ err))
          match env.toastResult with
          | .error e => ([.fetch, toastCall], .error e)
          | .ok _ =>
            match env.ackResult with
            | .error e => ([.fetch, toastCall, .answerCallback callback_id none], .error e)
            | .ok _ => ([.fetch, toastCall, .answerCallback callback_id none], .ok ())
    else ([], .ok ())

/-- Whether a call is an `answer_callback_query` call. -/
def isAck : BotCall → Bool
  | .answerCallback _ _ => true
  | _ => false

/-- Number of `answer_callback_query` calls in a trace. -/
def ackCount (tr : List BotCall) : Nat :=
  (tr.filter isAck).length

/-- Whether no quote fetch and no message edit occurs after any
`answer_callback_query` call of the trace. -/
def noUpdateAfterAck : List BotCall → Bool
  | [] => true
  | .answerCallback _ _ :: rest => rest.all isAck
  | _ :: rest => noUpdateAfterAck rest

/-- C2 counterexample: the claim states the handler issues exactly one
`answer_callback_query` call even when the quote fetch fails, but on a
fetch failure the source answers the query with the error text and then
answers it again to confirm — two calls for the same identifier. -/
theorem C2_counterexample :
    ackCount (handle_callback_query ⟨.netErr "connection failed", .ok (), .ok (), .ok ()⟩
      ⟨"q1", some pollerFilterTag, some ⟨5, 7⟩⟩).1 = 2 := rfl

/-- C2 (amended): for a matching callback query referencing a message, the
number of `answer_callback_query` calls issued is one when the fetch stage
succeeds and the edit call succeeds, zero when the edit call fails (its
propagated error skips the confirmation), two when the fetch fails and the
error-toast call succeeds, and one when the fetch fails and the toast call
itself fails. -/
theorem C2_ack_count (env : CallbackEnv) (q : CallbackQuery) (m : TargetMessage)
    (hd : q.data = some pollerFilterTag) (hm : q.message = some m) :
    ackCount (handle_callback_query env q).1
      = (match env.fetch with
         | .body _ => (match env.editResult with | .ok _ => 1 | .error _ => 0)
         | .netErr _ => (match env.toastResult with | .ok _ => 2 | .error _ => 1)) := by
  obtain ⟨fetch, editR, toastR, ackR⟩ := env
  obtain ⟨qid, qdata, qmsg⟩ := q
  simp only at hd hm
  subst hd hm
  cases fetch with
  | body s =>
    cases editR with
    | ok u =>
      cases ackR with
      | ok v => simp [handle_callback_query, get_bitcoin_price, ackCount, isAck]
      | error e => simp [handle_callback_query, get_bitcoin_price, ackCount, isAck]
    | error e => simp [handle_callback_query, get_bitcoin_price, ackCount, isAck]
  | netErr e =>
    cases toastR with
    | ok u =>
      cases ackR with
      | ok v => simp [handle_callback_query, get_bitcoin_price, ackCount, isAck]
      | error e2 => simp [handle_callback_query, get_bitcoin_price, ackCount, isAck]
    | error e2 => simp [handle_callback_query, get_bitcoin_price, ackCount, isAck]

/-- C2 witness: on a successful fetch and a successful edit, exactly one
`answer_callback_query` call is issued. -/
theorem C2_ack_count_witness :
    (⟨"q1", some pollerFilterTag, some ⟨5, 7⟩⟩ : CallbackQuery).data = some pollerFilterTag
    ∧ (⟨"q1", some pollerFilterTag, some ⟨5, 7⟩⟩ : CallbackQuery).message = some ⟨5, 7⟩
    ∧ ackCount (handle_callback_query ⟨.body "100.5", .ok (), .ok (), .ok ()⟩
        ⟨"q1", some pollerFilterTag, some ⟨5, 7⟩⟩).1 = 1 :=
  ⟨rfl, rfl, by
    have h := C2_ack_count ⟨.body "100.5", .ok (), .ok (), .ok ()⟩
      ⟨"q1", some pollerFilterTag, some ⟨5, 7⟩⟩ ⟨5, 7⟩ rfl rfl
    exact h⟩

/-- C4: within the handling of one callback query, no quote fetch and no
message edit ever occurs after an `answer_callback_query` call — the
content-update attempt always precedes any acknowledgment. -/
theorem C4_update_before_ack :
    ∀ (env : CallbackEnv) (q : CallbackQuery),
      noUpdateAfterAck (handle_callback_query env q).1 = true := by
  intro env q
  obtain ⟨fetch, editR, toastR, ackR⟩ := env
  obtain ⟨qid, qdata, qmsg⟩ := q
  cases qdata with
  | none => rfl
  | some d =>
    by_cases hd : d = pollerFilterTag
    · subst hd
      cases qmsg with
      | none => simp [handle_callback_query, noUpdateAfterAck]
      | some m =>
        cases fetch with
        | body s =>
          cases editR with
          | ok u =>
            cases ackR with
            | ok v => simp [handle_callback_query, get_bitcoin_price, noUpdateAfterAck, isAck]
            | error e => simp [handle_callback_query, get_bitcoin_price, noUpdateAfterAck, isAck]
          | error e => simp [handle_callback_query, get_bitcoin_price, noUpdateAfterAck, isAck]
        | netErr e =>
          cases toastR with
          | ok u =>
            cases ackR with
            | ok v => simp [handle_callback_query, get_bitcoin_price, noUpdateAfterAck, isAck]
            | error e2 => simp [handle_callback_query, get_bitcoin_price, noUpdateAfterAck, isAck]
          | error e2 => simp [handle_callback_query, get_bitcoin_price, noUpdateAfterAck, isAck]
    · simp [handle_callback_query, hd, noUpdateAfterAck]

/-- C6: a callback query whose payload is absent or differs from the
refresh token makes the handler issue no call at all and return success. -/
theorem C6_nonmatching_ignored (env : CallbackEnv) (q : CallbackQuery)
    (h : q.data ≠ some pollerFilterTag) :
    handle_callback_query env q = ([], .ok ()) := by
  obtain ⟨qid, qdata, qmsg⟩ := q
  cases qdata with
  | none => rfl
  | some d =>
    by_cases hd : d = pollerFilterTag
    · subst hd
      exact absurd rfl h
    · simp [handle_callback_query, hd]

/-- C6 witness: a query carrying a different action tag is ignored. -/
theorem C6_nonmatching_ignored_witness :
    (some "other_tag" ≠ some pollerFilterTag)
    ∧ handle_callback_query ⟨.body "1", .ok (), .ok (), .ok ()⟩
        ⟨"q2", some "other_tag", some ⟨1, 2⟩⟩ = ([], .ok ()) :=
  ⟨by decide, C6_nonmatching_ignored ⟨.body "1", .ok (), .ok (), .ok ()⟩
    ⟨"q2", some "other_tag", some ⟨1, 2⟩⟩ (by decide)⟩

/-- C10: a callback query whose payload matches the refresh token but which
references no message makes the handler issue no call at all — no fetch,
no edit, and no acknowledgment — and return success. -/
theorem C10_no_target_no_action (env : CallbackEnv) (q : CallbackQuery)
    (hd : q.data = some pollerFilterTag) (hm : q.message = none) :
    handle_callback_query env q = ([], .ok ()) := by
  obtain ⟨qid, qdata, qmsg⟩ := q
  simp only at hd hm
  subst hd hm
  simp [handle_callback_query]

/-- C10 witness: a matching query with no referenced message is left
untouched. -/
theorem C10_no_target_no_action_witness :
    (⟨"q3", some pollerFilterTag, none⟩ : CallbackQuery).data = some pollerFilterTag
    ∧ (⟨"q3", some pollerFilterTag, none⟩ : CallbackQuery).message = none
    ∧ handle_callback_query ⟨.body "1", .ok (), .ok (), .ok ()⟩
        ⟨"q3", some pollerFilterTag, none⟩ = ([], .ok ()) :=
  ⟨rfl, rfl, C10_no_target_no_action ⟨.body "1", .ok (), .ok (), .ok ()⟩
    ⟨"q3", some pollerFilterTag, none⟩ rfl rfl⟩

/-- Displayed state of one chat message on the platform: its text and its
attached inline keyboard, if any. -/
structure MessageState where
  text : String
  replyMarkup : Option Keyboard
  deriving DecidableEq

/-- Modelled from the spec: the platform's `edit(chat, message_handle,
text)` operation of section 6 replaces the displayed text of the target
message; the spec gives the operation no keyboard parameter and section
4.3 describes a text edit as leaving the attached button intact, so an
edit whose request carries no replacement markup preserves the existing
reply markup, while a supplied markup would replace it. -/
def MessageState.applyEdit (st : MessageState) (newText : String)
    (markup : Option Keyboard) : MessageState :=
  ⟨newText, match markup with | some k => some k | none => st.replyMarkup⟩

/-- Effect of a trace of outbound calls on the state of one target
message: edits addressed to that message apply; every other call leaves
it unchanged. -/
def applyTrace (target : TargetMessage) (st : MessageState) :
    List BotCall → MessageState
  | [] => st
  | .edit c m t mk :: rest =>
    if c = target.chatId ∧ m = target.msgId then
      applyTrace target (st.applyEdit t mk) rest
    else applyTrace target st rest
  | .fetch :: rest => applyTrace target st rest
  | .answerCallback _ _ :: rest => applyTrace target st rest

/-- C3: for a matching callback query with a successful quote fetch and a
successful edit, applying the handler's calls to the target message
replaces its text with the freshly formatted quote and leaves its reply
markup — in particular the attached refresh button — exactly as it was. -/
theorem C3_edit_preserves_button (env : CallbackEnv) (q : CallbackQuery)
    (m : TargetMessage) (st : MessageState) (val : Decimal)
    (hd : q.data = some pollerFilterTag) (hm : q.message = some m)
    (hf : get_bitcoin_price env.fetch = .ok val) (he : env.editResult = .ok ()) :
    applyTrace m st (handle_callback_query env q).1
      = ⟨"The price of the bitcoin is: " ++ Decimal.format2 val, st.replyMarkup⟩ := by
  obtain ⟨fetch, editR, toastR, ackR⟩ := env
  obtain ⟨qid, qdata, qmsg⟩ := q
  obtain ⟨mc, mi⟩ := m
  simp only at hd hm hf he
  subst hd hm he
  cases ackR with
  | ok v =>
    simp [handle_callback_query, hf, applyTrace, MessageState.applyEdit]
  | error e =>
    simp [handle_callback_query, hf, applyTrace, MessageState.applyEdit]

/-- C3 witness: starting from a message carrying the refresh button, a
successful refresh leaves that button attached and updates the text. -/
theorem C3_edit_preserves_button_witness :
    (⟨"q4", some pollerFilterTag, some ⟨5, 7⟩⟩ : CallbackQuery).data = some pollerFilterTag
    ∧ (⟨"q4", some pollerFilterTag, some ⟨5, 7⟩⟩ : CallbackQuery).message = some ⟨5, 7⟩
    ∧ get_bitcoin_price (.body "50000.123") = .ok ⟨50000123, 3⟩
    ∧ (⟨.body "50000.123", .ok (), .ok (), .ok ()⟩ : CallbackEnv).editResult = .ok ()
    ∧ applyTrace ⟨5, 7⟩ ⟨"old text", some [[⟨"Update Price", answerRefreshToken⟩]]⟩
        (handle_callback_query ⟨.body "50000.123", .ok (), .ok (), .ok ()⟩
          ⟨"q4", some pollerFilterTag, some ⟨5, 7⟩⟩).1
      = ⟨"The price of the bitcoin is: " ++ Decimal.format2 ⟨50000123, 3⟩,
          some [[⟨"Update Price", answerRefreshToken⟩]]⟩ :=
  ⟨rfl, rfl, rfl, rfl,
    C3_edit_preserves_button ⟨.body "50000.123", .ok (), .ok (), .ok ()⟩
      ⟨"q4", some pollerFilterTag, some ⟨5, 7⟩⟩ ⟨5, 7⟩
      ⟨"old text", some [[⟨"Update Price", answerRefreshToken⟩]]⟩
      ⟨50000123, 3⟩ rfl rfl rfl rfl⟩

/-- Kind of one update retrieved by the polling stream: a callback query
or any other update kind, which the loop ignores. -/
inductive UpdateKind where
  | callbackQuery (q : CallbackQuery)
  | other

/-- One update retrieved by the polling stream. -/
structure Update where
  kind : UpdateKind

/-- Embedding of the callback polling loop (src/main.rs lines 49-57) over a
finite prefix of the polling stream: retrieval errors are skipped,
non-callback updates are skipped, and each callback query is handled, its
handler error being logged and discarded; the loop never stops early. The
per-query environment supplies each handler invocation's external
outcomes, and the result records each handled query's id with the calls
its handling issued. -/
def pollLoop (env : CallbackQuery → CallbackEnv) :
    List (Except String Update) → List (String × List BotCall)
  | [] => []
  | .error _ :: rest => pollLoop env rest
  | .ok u :: rest =>
    match u.kind with
    | .callbackQuery q => (q.id, (handle_callback_query (env q) q).1) :: pollLoop env rest
    | .other => pollLoop env rest

/-- C9: an error in a single iteration never terminates the polling loop —
a failed retrieval is skipped and the remaining stream is processed
exactly as it would have been on its own, whatever the per-event handler
outcomes are. -/
theorem C9_poll_error_never_terminates :
    ∀ (env : CallbackQuery → CallbackEnv) (e : String)
      (xs ys : List (Except String Update)),
      pollLoop env (xs ++ Except.error e :: ys) = pollLoop env xs ++ pollLoop env ys := by
  intro env e xs ys
  induction xs with
  | nil => simp [pollLoop]
  | cons x rest ih =>
    cases x with
    | error e2 => simpa [pollLoop] using ih
    | ok u =>
      cases hu : u.kind with
      | callbackQuery q => simp [pollLoop, hu, ih]
      | other => simpa [pollLoop, hu] using ih

end Cryptocat
